import Mathlib

/-!
Verification of the RPA scraping system's job-lifecycle core.

This development shallowly embeds the job dispatcher (`app/main.py`), the
queue worker (`app/worker.py`), the data model (`app/models.py`) and the
response validation (`app/schemas.py`) of the repository, and proves or
refutes the frozen specification claims about them.

Modelling conventions:
- SQLAlchemy sessions are modelled by explicit state passing: a `DB` value is
  the committed database state; the worker functions return the final state
  together with the ordered list of committed intermediate states (one entry
  per `db.commit()` the source executes), so transactional grouping is
  observable.  Database-level commit failures are outside the model: every
  `db.commit()` in the source is assumed to succeed.
- Python exceptions raised inside the worker's try-block are the scrape
  failure (`ScrapeResult.err`) and row-construction failure (an unexpected
  keyword argument in `HockeyData(**data_dict)` / `OscarData(**data_dict)`);
  these are exactly the fallible operations of the source's try-blocks.
- JSON envelope bodies are modelled by `Body`; Python truthiness of the
  `job_id` value is modelled by `JsonVal.truthy`.  A non-integer truthy
  `job_id` never matches an integer primary key (`jobIdMatches`).
- RabbitMQ publish outcomes are supplied as `Except String Unit` parameters;
  an `Except.error` models `pika` raising inside `_publish_to_rabbitmq`.
-/

deriving instance DecidableEq for Except

namespace RpaScraping

/-- `JobStatus` from `app/models.py`. -/
inductive JobStatus where
  | pending
  | running
  | completed
  | failed
deriving DecidableEq, Repr

/-- `JobType` from `app/models.py`. -/
inductive JobType where
  | hockey
  | oscar
  | all
deriving DecidableEq, Repr

/-- A row of the `jobs` table (`Job` in `app/models.py`).  Timestamps are
not modelled; no claim depends on them. -/
structure Job where
  id : Nat
  type : JobType
  status : JobStatus
  errorMessage : Option String
deriving DecidableEq, Repr

/-- A JSON scalar value, as found in envelope bodies and scraped records. -/
inductive JsonVal where
  | jnull
  | jbool (b : Bool)
  | jint (n : Int)
  | jstr (s : String)
deriving DecidableEq, Repr

/-- Python truthiness of a JSON value (the worker's test: if not job_id). -/
def JsonVal.truthy : JsonVal → Bool
  | .jnull => false
  | .jbool b => b
  | .jint n => n != 0
  | .jstr s => s != ""

/-- A scraped record: the plain field-mapping a scrape capability returns. -/
abbrev RecordDict := List (String × JsonVal)

/-- Field lookup in a JSON object / record dict (Python dict.get). -/
def getField (fields : RecordDict) (k : String) : Option JsonVal :=
  (fields.find? (fun kv => kv.fst == k)).map (fun kv => kv.snd)

/-- The keyword arguments accepted by the `HockeyData` declarative
constructor: every mapped attribute of the model in `app/models.py` other
than `job_id`, which the worker already passes positionally (passing it
again in `data_dict` would raise a duplicate-argument TypeError, so it is
excluded here). -/
def hockeyAllowedKeys : List String :=
  ["id", "team_name", "year", "wins", "losses", "ot_losses",
   "win_pct", "gf", "ga", "diff", "job"]

/-- The keyword arguments accepted by the `OscarData` declarative
constructor, excluding `job_id` for the same reason. -/
def oscarAllowedKeys : List String :=
  ["id", "year", "title", "nominations", "awards", "best_picture", "job"]

/-- A row of the `hockey_data` table: the owning job id plus the scraped
field mapping. -/
structure HockeyRow where
  jobId : Nat
  fields : RecordDict
deriving DecidableEq, Repr

/-- A row of the `oscar_data` table. -/
structure OscarRow where
  jobId : Nat
  fields : RecordDict
deriving DecidableEq, Repr

/-- `HockeyData(job_id=job_id, **data_dict)`: raises (returns `.error`)
iff some key of the record is not an accepted keyword argument. -/
def mkHockeyRow (jobId : Nat) (rec : RecordDict) : Except String HockeyRow :=
  match rec.find? (fun kv => !(hockeyAllowedKeys.contains kv.fst)) with
  | some kv => .error ("invalid keyword argument for HockeyData: " ++ kv.fst)
  | none => .ok ⟨jobId, rec⟩

/-- `OscarData(job_id=job_id, **data_dict)`. -/
def mkOscarRow (jobId : Nat) (rec : RecordDict) : Except String OscarRow :=
  match rec.find? (fun kv => !(oscarAllowedKeys.contains kv.fst)) with
  | some kv => .error ("invalid keyword argument for OscarData: " ++ kv.fst)
  | none => .ok ⟨jobId, rec⟩

/-- The committed database state: the three tables of `app/models.py`. -/
structure DB where
  jobs : List Job
  hockeyRows : List HockeyRow
  oscarRows : List OscarRow
deriving DecidableEq, Repr

def emptyDB : DB := ⟨[], [], []⟩

/-- db.query(Job).filter(Job.id == job_id).first() for an integer id. -/
def DB.findJob (db : DB) (jobId : Nat) : Option Job :=
  db.jobs.find? (fun j => j.id == jobId)

/-- Whether the envelope's `job_id` JSON value matches an integer primary
key.  A non-integer truthy value (a non-empty string) never equals an
integer id in SQL, so the query returns no row. -/
def jobIdMatches (v : JsonVal) (id : Nat) : Bool :=
  match v with
  | .jint n => n == (id : Int)
  | _ => false

/-- db.query(Job).filter(Job.id == job_id).first() for a raw envelope
`job_id` value. -/
def DB.findJobV (db : DB) (v : JsonVal) : Option Job :=
  db.jobs.find? (fun j => jobIdMatches v j.id)

/-- Commit a mutation of the job row with the given id (the session's
identity-mapped object written back on `db.commit()`). -/
def DB.updateJob (db : DB) (jobId : Nat) (f : Job → Job) : DB :=
  { db with jobs := db.jobs.map (fun j => if j.id == jobId then f j else j) }

/-- job.status = JobStatus.RUNNING -/
def setRunning (j : Job) : Job := { j with status := .running }

/-- job.status = JobStatus.COMPLETED -/
def setCompleted (j : Job) : Job := { j with status := .completed }

/-- job.status = JobStatus.FAILED; job.error_message = str(e) -/
def setFailed (msg : String) (j : Job) : Job :=
  { j with status := .failed, errorMessage := some msg }

/-- Outcome of invoking a scrape capability: a list of record dicts, or a
raised exception with its text. -/
inductive ScrapeResult where
  | ok (records : List RecordDict)
  | err (msg : String)
deriving DecidableEq, Repr

/-- The worker's row-staging loop: construct a row per record in order,
stopping at the first constructor failure.  On failure it returns the rows
already staged in the session (`db.add` was called on them) together with
the exception text. -/
def buildRows (mk : Nat → RecordDict → Except String α) (jobId : Nat) :
    List RecordDict → Except (List α × String) (List α)
  | [] => .ok []
  | r :: rs =>
    match mk jobId r with
    | .error e => .error ([], e)
    | .ok row =>
      match buildRows mk jobId rs with
      | .ok rows => .ok (row :: rows)
      | .error (staged, e) => .error (row :: staged, e)

/-- Result of `_process_hockey_job` / `_process_oscar_job`: the final
committed state, the list of states committed by this call in order, and
the exception re-raised to the message handler, if any. -/
structure JobRunResult where
  db : DB
  commits : List DB
  raised : Option String
deriving DecidableEq, Repr

/-- `ScraperWorker._process_hockey_job` (`app/worker.py`).  Looks the job
up, unconditionally sets it RUNNING and commits, runs the scrape, stages
one `HockeyData` row per record, sets COMPLETED and commits; on any
exception the except-block sets FAILED with the exception text and commits
(which also publishes the rows staged before the exception), then
re-raises. -/
def processHockeyJob (db : DB) (jobIdV : JsonVal) (scrape : ScrapeResult) :
    JobRunResult :=
  match db.findJobV jobIdV with
  | none => ⟨db, [], none⟩
  | some job =>
    let db1 := db.updateJob job.id setRunning
    match scrape with
    | .err msg =>
      let db2 := db1.updateJob job.id (setFailed msg)
      ⟨db2, [db1, db2], some msg⟩
    | .ok records =>
      match buildRows mkHockeyRow job.id records with
      | .ok rows =>
        let db2 := { db1.updateJob job.id setCompleted with
                     hockeyRows := db1.hockeyRows ++ rows }
        ⟨db2, [db1, db2], none⟩
      | .error (staged, msg) =>
        let db2 := { db1.updateJob job.id (setFailed msg) with
                     hockeyRows := db1.hockeyRows ++ staged }
        ⟨db2, [db1, db2], some msg⟩

/-- `ScraperWorker._process_oscar_job` (`app/worker.py`), identical in
shape to the hockey variant but writing `oscar_data` rows. -/
def processOscarJob (db : DB) (jobIdV : JsonVal) (scrape : ScrapeResult) :
    JobRunResult :=
  match db.findJobV jobIdV with
  | none => ⟨db, [], none⟩
  | some job =>
    let db1 := db.updateJob job.id setRunning
    match scrape with
    | .err msg =>
      let db2 := db1.updateJob job.id (setFailed msg)
      ⟨db2, [db1, db2], some msg⟩
    | .ok records =>
      match buildRows mkOscarRow job.id records with
      | .ok rows =>
        let db2 := { db1.updateJob job.id setCompleted with
                     oscarRows := db1.oscarRows ++ rows }
        ⟨db2, [db1, db2], none⟩
      | .error (staged, msg) =>
        let db2 := { db1.updateJob job.id (setFailed msg) with
                     oscarRows := db1.oscarRows ++ staged }
        ⟨db2, [db1, db2], some msg⟩

/-- A consumed envelope body.  `invalid` is a body `json.loads` rejects;
`nonDict` parses to a non-object JSON value, on which `message.get` raises
AttributeError; `dict` is a parsed JSON object. -/
inductive Body where
  | invalid
  | nonDict
  | dict (fields : List (String × JsonVal))
deriving DecidableEq, Repr

/-- The handler's acknowledgement decision.  The source's only nack is
basic_nack(requeue=False). -/
inductive Outcome where
  | acked
  | nackedNoRequeue
deriving DecidableEq, Repr

/-- Result of one message-handler invocation. -/
structure MsgResult where
  db : DB
  commits : List DB
  outcome : Outcome
deriving DecidableEq, Repr

/-- `ScraperWorker._process_hockey_message` (`app/worker.py`): parse the
body (a parse or attribute error is caught by the outer except, which
nacks without requeue); ack and drop when `job_id` is missing or falsy;
otherwise process the job, acking on normal return and nacking without
requeue when the job processing re-raised. -/
def processHockeyMessage (db : DB) (body : Body) (scrape : ScrapeResult) :
    MsgResult :=
  match body with
  | .invalid => ⟨db, [], .nackedNoRequeue⟩
  | .nonDict => ⟨db, [], .nackedNoRequeue⟩
  | .dict fields =>
    match getField fields "job_id" with
    | none => ⟨db, [], .acked⟩
    | some v =>
      if v.truthy then
        let r := processHockeyJob db v scrape
        match r.raised with
        | none => ⟨r.db, r.commits, .acked⟩
        | some _ => ⟨r.db, r.commits, .nackedNoRequeue⟩
      else ⟨db, [], .acked⟩

/-- `ScraperWorker._process_oscar_message` (`app/worker.py`). -/
def processOscarMessage (db : DB) (body : Body) (scrape : ScrapeResult) :
    MsgResult :=
  match body with
  | .invalid => ⟨db, [], .nackedNoRequeue⟩
  | .nonDict => ⟨db, [], .nackedNoRequeue⟩
  | .dict fields =>
    match getField fields "job_id" with
    | none => ⟨db, [], .acked⟩
    | some v =>
      if v.truthy then
        let r := processOscarJob db v scrape
        match r.raised with
        | none => ⟨r.db, r.commits, .acked⟩
        | some _ => ⟨r.db, r.commits, .nackedNoRequeue⟩
      else ⟨db, [], .acked⟩

/-- `CrawlResponse` from `app/schemas.py`. -/
structure CrawlResponse where
  jobId : Nat
  message : String
  status : JobStatus
deriving DecidableEq, Repr

/-- An HTTPException raised by the dispatcher. -/
structure HTTPError where
  statusCode : Nat
  detail : String
deriving DecidableEq, Repr

/-- A message published to a queue: `{"job_id": ..., "type": ...}` sent to
a named queue. -/
structure Envelope where
  queue : String
  jobId : Nat
  type : String
deriving DecidableEq, Repr

/-- Result of one dispatcher endpoint call: final committed state, the
commit trace, the envelopes published (in order), and the HTTP outcome. -/
structure DispatchResult where
  db : DB
  commits : List DB
  published : List Envelope
  response : Except HTTPError CrawlResponse
deriving DecidableEq, Repr

/-- `_schedule_crawl_job` (`app/main.py`): create the job PENDING and
commit; attempt the publish (outcome supplied as `pub`); on failure set
FAILED with the captured error, commit, and raise HTTP 500; on success
return the job as pending. -/
def scheduleCrawlJob (db : DB) (nextId : Nat) (jobType : JobType)
    (queueName typeName messageSuffix : String) (pub : Except String Unit) :
    DispatchResult :=
  let job : Job := ⟨nextId, jobType, .pending, none⟩
  let db1 : DB := { db with jobs := db.jobs ++ [job] }
  match pub with
  | .error e =>
    let db2 := db1.updateJob nextId (setFailed ("Falha ao publicar mensagem: " ++ e))
    ⟨db2, [db1, db2], [], .error ⟨500, "Erro ao agendar job: " ++ e⟩⟩
  | .ok _ =>
    ⟨db1, [db1], [⟨queueName, nextId, typeName⟩],
     .ok ⟨nextId, "Job de scraping " ++ messageSuffix ++ " agendado com sucesso",
          .pending⟩⟩

/-- `crawl_all` (`app/main.py`): create one job of type ALL and commit,
then publish to the hockey queue and then to the oscar queue with the same
job id.  If either publish raises, the job is set FAILED with the captured
error, committed, and HTTP 500 is raised; an envelope already published to
the hockey queue stays published. -/
def crawlAll (db : DB) (nextId : Nat) (qHockey qOscar : String)
    (pubH pubO : Except String Unit) : DispatchResult :=
  let job : Job := ⟨nextId, .all, .pending, none⟩
  let db1 : DB := { db with jobs := db.jobs ++ [job] }
  match pubH with
  | .error e =>
    let db2 := db1.updateJob nextId (setFailed ("Falha ao publicar mensagens: " ++ e))
    ⟨db2, [db1, db2], [], .error ⟨500, "Erro ao agendar jobs: " ++ e⟩⟩
  | .ok _ =>
    match pubO with
    | .error e =>
      let db2 := db1.updateJob nextId (setFailed ("Falha ao publicar mensagens: " ++ e))
      ⟨db2, [db1, db2], [⟨qHockey, nextId, "hockey"⟩],
       .error ⟨500, "Erro ao agendar jobs: " ++ e⟩⟩
    | .ok _ =>
      ⟨db1, [db1], [⟨qHockey, nextId, "hockey"⟩, ⟨qOscar, nextId, "oscar"⟩],
       .ok ⟨nextId, "Jobs de scraping agendados com sucesso", .pending⟩⟩

/-- Validation performed by the `OscarDataResponse` pydantic schema
(`app/schemas.py`): field bounds `1927 ≤ year ≤ 2100`, `1 ≤ |title| ≤ 500`,
`nominations ≥ 0`, `awards ≥ 0`, and the cross-field validator rejecting
`awards > nominations` whenever `nominations` itself validated (pydantic
only exposes previously validated fields in `info.data`). -/
def oscarResponseValid (year : Int) (title : String)
    (nominations awards : Int) : Bool :=
  (1927 ≤ year && year ≤ 2100) &&
  (1 ≤ title.length && title.length ≤ 500) &&
  (0 ≤ nominations) &&
  (0 ≤ awards && !(0 ≤ nominations && nominations < awards))

/-- A record whose every key is an accepted `HockeyData` keyword argument. -/
def hockeyRecOk (r : RecordDict) : Bool :=
  r.all (fun kv => hockeyAllowedKeys.contains kv.fst)

/-- The status of the job with the given id in each committed state, in
commit order: the externally observable status history a poller sees. -/
def jobStatusesIn (commits : List DB) (id : Nat) : List (Option JobStatus) :=
  commits.map (fun d => (d.findJob id).map Job.status)

/-- The per-job half of the spec's `error_message` invariant that the code
actually maintains: a PENDING job carries no error message, and a FAILED
job always has its error message set. -/
def jobInv (j : Job) : Prop :=
  (j.status = .pending → j.errorMessage = none) ∧
  (j.status = .failed → j.errorMessage ≠ none)

/-- The invariant over a whole committed database state. -/
def dbInv (db : DB) : Prop := ∀ j ∈ db.jobs, jobInv j

/-- One committed-state transition of the system: a dispatcher endpoint
call or the consumption of one envelope by a worker handler. -/
inductive Step : DB → DB → Prop where
  | schedule (db : DB) (nextId : Nat) (jobType : JobType)
      (qn tn ms : String) (pub : Except String Unit) :
      Step db (scheduleCrawlJob db nextId jobType qn tn ms pub).db
  | crawlAllStep (db : DB) (nextId : Nat) (qh qo : String)
      (pubH pubO : Except String Unit) :
      Step db (crawlAll db nextId qh qo pubH pubO).db
  | hockeyMsg (db : DB) (body : Body) (scrape : ScrapeResult) :
      Step db (processHockeyMessage db body scrape).db
  | oscarMsg (db : DB) (body : Body) (scrape : ScrapeResult) :
      Step db (processOscarMessage db body scrape).db

/-- Database states reachable from the empty database by any sequence of
dispatcher and worker operations. -/
inductive Reach : DB → Prop where
  | init : Reach emptyDB
  | next {db db' : DB} : Reach db → Step db db' → Reach db'

/-- An award record with `awards > nominations`, used to exercise the
persistence path. -/
def violatingOscarRecord : RecordDict :=
  [("year", .jint 2010), ("title", .jstr "X"), ("nominations", .jint 3),
   ("awards", .jint 5), ("best_picture", .jbool false)]

/-! ## Helper lemmas -/

theorem mkHockeyRow_ok {id : Nat} {r : RecordDict} (h : hockeyRecOk r = true) :
    mkHockeyRow id r = .ok ⟨id, r⟩ := by
  unfold mkHockeyRow
  have hnone : r.find? (fun kv => !(hockeyAllowedKeys.contains kv.fst)) = none := by
    rw [List.find?_eq_none]
    intro kv hkv
    have hc := List.all_eq_true.mp h kv hkv
    simp only [hc, Bool.not_true, Bool.false_eq_true, not_false_eq_true]
  rw [hnone]

theorem buildRows_ok_hockey (id : Nat) {records : List RecordDict}
    (h : records.all hockeyRecOk = true) :
    buildRows mkHockeyRow id records =
      .ok (records.map (fun r => (⟨id, r⟩ : HockeyRow))) := by
  induction records with
  | nil => rfl
  | cons r rs ih =>
    rw [List.all_cons, Bool.and_eq_true] at h
    simp [buildRows, mkHockeyRow_ok h.1, ih h.2]

theorem find?_append_of_none {α : Type} {l1 l2 : List α} {p : α → Bool}
    (h : l1.find? p = none) : (l1 ++ l2).find? p = l2.find? p := by
  induction l1 with
  | nil => rfl
  | cons a l ih =>
    cases ha : p a with
    | true => simp [List.find?, ha] at h
    | false =>
      simp only [List.find?, ha] at h
      simp [List.find?, ha, ih h]

theorem map_update_id_of_none {l : List Job} {id : Nat} {f : Job → Job}
    (h : l.find? (fun j => j.id == id) = none) :
    l.map (fun j => if j.id == id then f j else j) = l := by
  induction l with
  | nil => rfl
  | cons a l ih =>
    cases ha : (a.id == id) with
    | true => simp [List.find?, ha] at h
    | false =>
      simp only [List.find?, ha] at h
      simp only [List.map_cons, ha, Bool.false_eq_true, if_false, ih h]

theorem updateJob_hockeyRows (db : DB) (id : Nat) (f : Job → Job) :
    (db.updateJob id f).hockeyRows = db.hockeyRows := rfl

theorem updateJob_oscarRows (db : DB) (id : Nat) (f : Job → Job) :
    (db.updateJob id f).oscarRows = db.oscarRows := rfl

theorem updateJob_append_fresh {db : DB} (id : Nat) (j : Job) (f : Job → Job)
    (hid : j.id = id) (h : db.findJob id = none) :
    DB.updateJob { db with jobs := db.jobs ++ [j] } id f =
      { db with jobs := db.jobs ++ [f j] } := by
  subst hid
  have hmap : (db.jobs ++ [j]).map (fun x => if x.id == j.id then f x else x) =
      db.jobs ++ [f j] := by
    rw [List.map_append, map_update_id_of_none h]
    simp
  show DB.mk ((db.jobs ++ [j]).map (fun x => if x.id == j.id then f x else x))
      db.hockeyRows db.oscarRows = DB.mk (db.jobs ++ [f j]) db.hockeyRows db.oscarRows
  rw [hmap]

theorem findJob_append_fresh {db : DB} (id : Nat) (j : Job) (hid : j.id = id)
    (h : db.findJob id = none) :
    ({ db with jobs := db.jobs ++ [j] } : DB).findJob id = some j := by
  subst hid
  unfold DB.findJob at h ⊢
  rw [find?_append_of_none h]
  simp [List.find?]

theorem processHockeyJob_err {db : DB} {v : JsonVal} {job : Job} (m : String)
    (hfind : db.findJobV v = some job) :
    processHockeyJob db v (.err m) =
      ⟨(db.updateJob job.id setRunning).updateJob job.id (setFailed m),
       [db.updateJob job.id setRunning,
        (db.updateJob job.id setRunning).updateJob job.id (setFailed m)],
       some m⟩ := by
  unfold processHockeyJob
  rw [hfind]

theorem processHockeyJob_ok {db : DB} {v : JsonVal} {job : Job}
    {records : List RecordDict} (hfind : db.findJobV v = some job)
    (hall : records.all hockeyRecOk = true) :
    processHockeyJob db v (.ok records) =
      ⟨{ (db.updateJob job.id setRunning).updateJob job.id setCompleted with
         hockeyRows := db.hockeyRows ++ records.map (fun r => ⟨job.id, r⟩) },
       [db.updateJob job.id setRunning,
        { (db.updateJob job.id setRunning).updateJob job.id setCompleted with
          hockeyRows := db.hockeyRows ++ records.map (fun r => ⟨job.id, r⟩) }],
       none⟩ := by
  unfold processHockeyJob
  rw [hfind]
  have hb := buildRows_ok_hockey job.id hall
  simp [hb, updateJob_hockeyRows]

theorem processHockeyJob_build_error {db : DB} {v : JsonVal} {job : Job}
    {records : List RecordDict} {staged : List HockeyRow} {m : String}
    (hfind : db.findJobV v = some job)
    (hb : buildRows mkHockeyRow job.id records = .error (staged, m)) :
    processHockeyJob db v (.ok records) =
      ⟨{ (db.updateJob job.id setRunning).updateJob job.id (setFailed m) with
         hockeyRows := db.hockeyRows ++ staged },
       [db.updateJob job.id setRunning,
        { (db.updateJob job.id setRunning).updateJob job.id (setFailed m) with
          hockeyRows := db.hockeyRows ++ staged }],
       some m⟩ := by
  unfold processHockeyJob
  rw [hfind]
  simp [hb, updateJob_hockeyRows]

theorem processHockeyMessage_run {db : DB} {fields : List (String × JsonVal)}
    {v : JsonVal} (scrape : ScrapeResult)
    (hget : getField fields "job_id" = some v) (htr : v.truthy = true) :
    processHockeyMessage db (.dict fields) scrape =
      (match (processHockeyJob db v scrape).raised with
       | none => ⟨(processHockeyJob db v scrape).db,
                  (processHockeyJob db v scrape).commits, .acked⟩
       | some _ => ⟨(processHockeyJob db v scrape).db,
                    (processHockeyJob db v scrape).commits, .nackedNoRequeue⟩) := by
  unfold processHockeyMessage
  dsimp only
  rw [hget]
  dsimp only
  simp only [htr, if_true]

/-! ## Claim theorems -/

/-- C8 counterexample: an unparseable envelope body is rejected without
requeue by the worker's outer exception handler, not acknowledged as the
claim states. -/
theorem c8_counterexample :
    (processHockeyMessage emptyDB .invalid (.ok [])).outcome = .nackedNoRequeue ∧
    (processHockeyMessage emptyDB .invalid (.ok [])).outcome ≠ .acked := by
  exact ⟨rfl, by decide⟩

/-- C8 (amended): an envelope that parses to a JSON object with no
`job_id` key is acknowledged and dropped with no commit and no job
mutation; an unparseable body instead raises in `json.loads` and is
rejected without requeue, also with no job mutation. -/
theorem c8_malformed_envelope :
    (∀ (db : DB) (fields : List (String × JsonVal)) (scrape : ScrapeResult),
       getField fields "job_id" = none →
       processHockeyMessage db (.dict fields) scrape = ⟨db, [], .acked⟩) ∧
    (∀ (db : DB) (scrape : ScrapeResult),
       processHockeyMessage db .invalid scrape = ⟨db, [], .nackedNoRequeue⟩) := by
  constructor
  · intro db fields scrape hget
    unfold processHockeyMessage
    dsimp only
    rw [hget]
  · intro db scrape
    rfl

/-- C8 witness: the amended behavior at concrete inputs. -/
theorem c8_malformed_envelope_witness :
    processHockeyMessage emptyDB (.dict [("type", .jstr "hockey")]) (.ok []) =
      ⟨emptyDB, [], .acked⟩ ∧
    processHockeyMessage emptyDB .invalid (.ok []) =
      ⟨emptyDB, [], .nackedNoRequeue⟩ :=
  ⟨c8_malformed_envelope.1 emptyDB [("type", .jstr "hockey")] (.ok []) rfl,
   c8_malformed_envelope.2 emptyDB (.ok [])⟩

/-- C9: an envelope whose `job_id` value is falsy in Python (0, null, the
empty string, or false) is acknowledged and dropped by both handlers with
no commit and no job mutation, exactly like a missing `job_id`. -/
theorem c9_falsy_job_id (db : DB) (fields : List (String × JsonVal))
    (v : JsonVal) (scrape : ScrapeResult)
    (hget : getField fields "job_id" = some v) (hfalsy : v.truthy = false) :
    processHockeyMessage db (.dict fields) scrape = ⟨db, [], .acked⟩ ∧
    processOscarMessage db (.dict fields) scrape = ⟨db, [], .acked⟩ := by
  constructor
  · unfold processHockeyMessage
    dsimp only
    rw [hget]
    dsimp only
    simp only [hfalsy, Bool.false_eq_true, if_false]
  · unfold processOscarMessage
    dsimp only
    rw [hget]
    dsimp only
    simp only [hfalsy, Bool.false_eq_true, if_false]

/-- C9 witness: a well-formed integer `job_id` of 0 is dropped. -/
theorem c9_falsy_job_id_witness :
    processHockeyMessage emptyDB (.dict [("job_id", .jint 0)]) (.ok []) =
      ⟨emptyDB, [], .acked⟩ ∧
    processOscarMessage emptyDB (.dict [("job_id", .jint 0)]) (.ok []) =
      ⟨emptyDB, [], .acked⟩ :=
  c9_falsy_job_id emptyDB [("job_id", .jint 0)] (.jint 0) (.ok []) rfl rfl

/-- C1 counterexample: a redelivered envelope for an already COMPLETED job
is not rejected: the first committed state of reprocessing moves the job
COMPLETED→RUNNING, and no error of any kind is raised. -/
theorem c1_counterexample :
    (processHockeyJob ⟨[⟨1, .hockey, .completed, none⟩], [], []⟩ (.jint 1)
        (.ok [])).commits.head? =
      some ⟨[⟨1, .hockey, .running, none⟩], [], []⟩ ∧
    (processHockeyJob ⟨[⟨1, .hockey, .completed, none⟩], [], []⟩ (.jint 1)
        (.ok [])).raised = none := by
  exact ⟨rfl, rfl⟩

/-- C1 (amended): the status update performs no state-machine validation
and there is no InvalidTransition failure path: whenever the referenced
job exists, both job processors unconditionally commit the RUNNING write
as their first commit, whatever the job's current status (including
terminal ones). -/
theorem c1_no_transition_validation (db : DB) (v : JsonVal) (job : Job)
    (scrape : ScrapeResult) (hfind : db.findJobV v = some job) :
    (processHockeyJob db v scrape).commits.head? =
      some (db.updateJob job.id setRunning) ∧
    (processOscarJob db v scrape).commits.head? =
      some (db.updateJob job.id setRunning) := by
  constructor
  · unfold processHockeyJob
    rw [hfind]
    cases scrape with
    | err m => rfl
    | ok records =>
      dsimp only
      cases hb : buildRows mkHockeyRow job.id records with
      | ok rows => rfl
      | error p =>
        obtain ⟨staged, m⟩ := p
        rfl
  · unfold processOscarJob
    rw [hfind]
    cases scrape with
    | err m => rfl
    | ok records =>
      dsimp only
      cases hb : buildRows mkOscarRow job.id records with
      | ok rows => rfl
      | error p =>
        obtain ⟨staged, m⟩ := p
        rfl

/-- C1 witness: the amended statement at a COMPLETED job. -/
theorem c1_no_transition_validation_witness :
    (processHockeyJob ⟨[⟨1, .all, .completed, none⟩], [], []⟩ (.jint 1)
        (.err "e")).commits.head? =
      some (DB.updateJob ⟨[⟨1, .all, .completed, none⟩], [], []⟩ 1 setRunning) ∧
    (processOscarJob ⟨[⟨1, .all, .completed, none⟩], [], []⟩ (.jint 1)
        (.err "e")).commits.head? =
      some (DB.updateJob ⟨[⟨1, .all, .completed, none⟩], [], []⟩ 1 setRunning) :=
  c1_no_transition_validation ⟨[⟨1, .all, .completed, none⟩], [], []⟩ (.jint 1)
    ⟨1, .all, .completed, none⟩ (.err "e") rfl

/-- C2 counterexample: a failure while constructing the second row (an
unexpected key) leaves the first row persisted: the except-block's commit
publishes the staged rows together with the FAILED status, so result
insertion is not all-or-nothing. -/
theorem c2_counterexample :
    (processHockeyMessage ⟨[⟨1, .hockey, .pending, none⟩], [], []⟩
        (.dict [("job_id", .jint 1)])
        (.ok [[("team_name", .jstr "A"), ("year", .jint 1990)],
              [("bogus", .jint 1)]])).db.hockeyRows =
      [⟨1, [("team_name", .jstr "A"), ("year", .jint 1990)]⟩] ∧
    (processHockeyMessage ⟨[⟨1, .hockey, .pending, none⟩], [], []⟩
        (.dict [("job_id", .jint 1)])
        (.ok [[("team_name", .jstr "A"), ("year", .jint 1990)],
              [("bogus", .jint 1)]])).db.findJob 1 =
      some ⟨1, .hockey, .failed,
            some "invalid keyword argument for HockeyData: bogus"⟩ ∧
    (processHockeyMessage ⟨[⟨1, .hockey, .pending, none⟩], [], []⟩
        (.dict [("job_id", .jint 1)])
        (.ok [[("team_name", .jstr "A"), ("year", .jint 1990)],
              [("bogus", .jint 1)]])).outcome = .nackedNoRequeue := by
  exact ⟨rfl, rfl, rfl⟩

/-- C2 (amended): after the job was set RUNNING, a failure of the scrape
itself marks the job FAILED with the captured error text, rejects the
envelope without requeue, and persists zero rows; but a failure while
constructing/staging the rows commits the rows staged before the failure
together with the FAILED status, so insertion is all-or-nothing only when
the failure precedes all staging. -/
theorem c2_failure_handling (db : DB) (fields : List (String × JsonVal))
    (v : JsonVal) (job : Job) (m : String)
    (hget : getField fields "job_id" = some v) (htr : v.truthy = true)
    (hfind : db.findJobV v = some job) :
    (processHockeyMessage db (.dict fields) (.err m) =
       ⟨(db.updateJob job.id setRunning).updateJob job.id (setFailed m),
        [db.updateJob job.id setRunning,
         (db.updateJob job.id setRunning).updateJob job.id (setFailed m)],
        .nackedNoRequeue⟩ ∧
     (processHockeyMessage db (.dict fields) (.err m)).db.hockeyRows =
       db.hockeyRows) ∧
    (∀ (records : List RecordDict) (staged : List HockeyRow),
       buildRows mkHockeyRow job.id records = .error (staged, m) →
       processHockeyMessage db (.dict fields) (.ok records) =
         ⟨{ (db.updateJob job.id setRunning).updateJob job.id (setFailed m) with
            hockeyRows := db.hockeyRows ++ staged },
          [db.updateJob job.id setRunning,
           { (db.updateJob job.id setRunning).updateJob job.id (setFailed m) with
             hockeyRows := db.hockeyRows ++ staged }],
          .nackedNoRequeue⟩) := by
  refine ⟨⟨?_, ?_⟩, ?_⟩
  · rw [processHockeyMessage_run (.err m) hget htr, processHockeyJob_err m hfind]
  · rw [processHockeyMessage_run (.err m) hget htr, processHockeyJob_err m hfind]
    rfl
  · intro records staged hb
    rw [processHockeyMessage_run (.ok records) hget htr,
        processHockeyJob_build_error hfind hb]

/-- C2 witness: the amended statement at concrete inputs, with one staged
row surviving a constructor failure on the second record. -/
theorem c2_failure_handling_witness :
    buildRows mkHockeyRow 1 [[("year", .jint 1990)], [("bogus", .jint 1)]] =
      .error ([⟨1, [("year", .jint 1990)]⟩],
              "invalid keyword argument for HockeyData: bogus") ∧
    processHockeyMessage ⟨[⟨1, .hockey, .pending, none⟩], [], []⟩
        (.dict [("job_id", .jint 1)])
        (.ok [[("year", .jint 1990)], [("bogus", .jint 1)]]) =
      ⟨{ (DB.updateJob ⟨[⟨1, .hockey, .pending, none⟩], [], []⟩ 1
            setRunning).updateJob 1
            (setFailed "invalid keyword argument for HockeyData: bogus") with
         hockeyRows := [] ++ [⟨1, [("year", .jint 1990)]⟩] },
       [DB.updateJob ⟨[⟨1, .hockey, .pending, none⟩], [], []⟩ 1 setRunning,
        { (DB.updateJob ⟨[⟨1, .hockey, .pending, none⟩], [], []⟩ 1
             setRunning).updateJob 1
             (setFailed "invalid keyword argument for HockeyData: bogus") with
          hockeyRows := [] ++ [⟨1, [("year", .jint 1990)]⟩] }],
       .nackedNoRequeue⟩ :=
  ⟨rfl,
   (c2_failure_handling ⟨[⟨1, .hockey, .pending, none⟩], [], []⟩
      [("job_id", .jint 1)] (.jint 1) ⟨1, .hockey, .pending, none⟩
      "invalid keyword argument for HockeyData: bogus" rfl rfl rfl).2
     [[("year", .jint 1990)], [("bogus", .jint 1)]]
     [⟨1, [("year", .jint 1990)]⟩] rfl⟩

/-- C4: when the scrape capability returns records (all with valid model
keys), the worker inserts every returned record under the envelope's job
id and sets the job COMPLETED, committing the insertions and the status
change together in the single second commit, and acknowledges the
envelope after that commit. -/
theorem c4_success_single_transaction (db : DB)
    (fields : List (String × JsonVal)) (v : JsonVal) (job : Job)
    (records : List RecordDict)
    (hget : getField fields "job_id" = some v) (htr : v.truthy = true)
    (hfind : db.findJobV v = some job)
    (hall : records.all hockeyRecOk = true) :
    processHockeyMessage db (.dict fields) (.ok records) =
      ⟨{ (db.updateJob job.id setRunning).updateJob job.id setCompleted with
         hockeyRows := db.hockeyRows ++ records.map (fun r => ⟨job.id, r⟩) },
       [db.updateJob job.id setRunning,
        { (db.updateJob job.id setRunning).updateJob job.id setCompleted with
          hockeyRows := db.hockeyRows ++ records.map (fun r => ⟨job.id, r⟩) }],
       .acked⟩ := by
  rw [processHockeyMessage_run (.ok records) hget htr,
      processHockeyJob_ok hfind hall]

/-- C4 witness: the success path at concrete inputs. -/
theorem c4_success_single_transaction_witness :
    processHockeyMessage ⟨[⟨1, .hockey, .pending, none⟩], [], []⟩
        (.dict [("job_id", .jint 1), ("type", .jstr "hockey")])
        (.ok [[("team_name", .jstr "A")]]) =
      ⟨{ (DB.updateJob ⟨[⟨1, .hockey, .pending, none⟩], [], []⟩ 1
            setRunning).updateJob 1 setCompleted with
         hockeyRows :=
           [] ++ [[("team_name", .jstr "A")]].map
             (fun r => (⟨1, r⟩ : HockeyRow)) },
       [DB.updateJob ⟨[⟨1, .hockey, .pending, none⟩], [], []⟩ 1 setRunning,
        { (DB.updateJob ⟨[⟨1, .hockey, .pending, none⟩], [], []⟩ 1
             setRunning).updateJob 1 setCompleted with
          hockeyRows :=
            [] ++ [[("team_name", .jstr "A")]].map
              (fun r => (⟨1, r⟩ : HockeyRow)) }],
       .acked⟩ :=
  c4_success_single_transaction ⟨[⟨1, .hockey, .pending, none⟩], [], []⟩
    [("job_id", .jint 1), ("type", .jstr "hockey")] (.jint 1)
    ⟨1, .hockey, .pending, none⟩ [[("team_name", .jstr "A")]] rfl rfl rfl rfl

/-- C10: the worker selects the scraper from the channel alone and never
consults the stored job's type or status: for every job type and every
prior status, an envelope on the hockey channel sets the job RUNNING, runs
the hockey scrape, attaches the hockey records to the job, and completes
it. -/
theorem c10_channel_selects_scraper (t : JobType) (s : JobStatus)
    (e : Option String) (records : List RecordDict)
    (hall : records.all hockeyRecOk = true) :
    processHockeyMessage ⟨[⟨1, t, s, e⟩], [], []⟩ (.dict [("job_id", .jint 1)])
        (.ok records) =
      ⟨⟨[⟨1, t, .completed, e⟩], records.map (fun r => ⟨1, r⟩), []⟩,
       [⟨[⟨1, t, .running, e⟩], [], []⟩,
        ⟨[⟨1, t, .completed, e⟩], records.map (fun r => ⟨1, r⟩), []⟩],
       .acked⟩ := by
  have hfind : (⟨[⟨1, t, s, e⟩], [], []⟩ : DB).findJobV (.jint 1) =
      some ⟨1, t, s, e⟩ := rfl
  have hget : getField [("job_id", JsonVal.jint 1)] "job_id" =
      some (.jint 1) := rfl
  rw [processHockeyMessage_run (.ok records) hget rfl,
      processHockeyJob_ok hfind hall]
  rfl

/-- C10 witness: an oscar-typed, already COMPLETED job consumed on the
hockey channel gets hockey records attached. -/
theorem c10_channel_selects_scraper_witness :
    processHockeyMessage ⟨[⟨1, .oscar, .completed, none⟩], [], []⟩
        (.dict [("job_id", .jint 1)]) (.ok [[("team_name", .jstr "A")]]) =
      ⟨⟨[⟨1, .oscar, .completed, none⟩],
        [[("team_name", .jstr "A")]].map (fun r => (⟨1, r⟩ : HockeyRow)), []⟩,
       [⟨[⟨1, .oscar, .running, none⟩], [], []⟩,
        ⟨[⟨1, .oscar, .completed, none⟩],
         [[("team_name", .jstr "A")]].map (fun r => (⟨1, r⟩ : HockeyRow)), []⟩],
       .acked⟩ :=
  c10_channel_selects_scraper .oscar .completed none
    [[("team_name", .jstr "A")]] rfl

/-- C5 counterexample: the worker's persistence path performs no
awards/nominations validation: a record with awards = 5 > nominations = 3
is stored in `oscar_data` and the job completes and is acknowledged. -/
theorem c5_counterexample :
    (processOscarMessage ⟨[⟨1, .oscar, .pending, none⟩], [], []⟩
        (.dict [("job_id", .jint 1)])
        (.ok [violatingOscarRecord])).db.oscarRows =
      [⟨1, violatingOscarRecord⟩] ∧
    getField violatingOscarRecord "awards" = some (.jint 5) ∧
    getField violatingOscarRecord "nominations" = some (.jint 3) ∧
    (processOscarMessage ⟨[⟨1, .oscar, .pending, none⟩], [], []⟩
        (.dict [("job_id", .jint 1)])
        (.ok [violatingOscarRecord])).db.findJob 1 =
      some ⟨1, .oscar, .completed, none⟩ ∧
    (processOscarMessage ⟨[⟨1, .oscar, .pending, none⟩], [], []⟩
        (.dict [("job_id", .jint 1)])
        (.ok [violatingOscarRecord])).outcome = .acked := by
  exact ⟨rfl, rfl, rfl, rfl, rfl⟩

/-- C5 (amended): awards ≤ nominations is enforced only by the
`OscarDataResponse` API response schema, not on the persistence path: the
response validator rejects every record with awards exceeding a valid
nominations count, while the worker stores such records unchecked (see the
counterexample). -/
theorem c5_response_validation_only (year : Int) (title : String)
    (nominations awards : Int) (hnom : 0 ≤ nominations)
    (hviol : nominations < awards) :
    oscarResponseValid year title nominations awards = false := by
  unfold oscarResponseValid
  rw [decide_eq_true hnom, decide_eq_true hviol]
  simp

/-- C5 witness: the response validator rejects awards = 5 with
nominations = 3. -/
theorem c5_response_validation_only_witness :
    oscarResponseValid 2010 "X" 3 5 = false :=
  c5_response_validation_only 2010 "X" 3 5 (by decide) (by decide)

/-- C6: the dispatcher first creates the job PENDING; if the publish
fails the job is transitioned PENDING→FAILED with the error captured in
`error_message` and HTTP 500 is raised; if the publish succeeds the job is
returned as pending, and in neither case does any committed state ever
show the job RUNNING. -/
theorem c6_dispatch_single (db : DB) (nextId : Nat) (jobType : JobType)
    (qn tn ms e : String) (hfresh : db.findJob nextId = none) :
    ((scheduleCrawlJob db nextId jobType qn tn ms (.error e)).response =
       .error ⟨500, "Erro ao agendar job: " ++ e⟩ ∧
     (scheduleCrawlJob db nextId jobType qn tn ms (.error e)).db.findJob nextId =
       some ⟨nextId, jobType, .failed,
             some ("Falha ao publicar mensagem: " ++ e)⟩ ∧
     jobStatusesIn (scheduleCrawlJob db nextId jobType qn tn ms
         (.error e)).commits nextId = [some .pending, some .failed] ∧
     (scheduleCrawlJob db nextId jobType qn tn ms (.error e)).published = []) ∧
    ((scheduleCrawlJob db nextId jobType qn tn ms (.ok ())).response =
       .ok ⟨nextId, "Job de scraping " ++ ms ++ " agendado com sucesso",
            .pending⟩ ∧
     (scheduleCrawlJob db nextId jobType qn tn ms (.ok ())).db.findJob nextId =
       some ⟨nextId, jobType, .pending, none⟩ ∧
     jobStatusesIn (scheduleCrawlJob db nextId jobType qn tn ms
         (.ok ())).commits nextId = [some .pending] ∧
     (scheduleCrawlJob db nextId jobType qn tn ms (.ok ())).published =
       [⟨qn, nextId, tn⟩]) := by
  have hupd := updateJob_append_fresh nextId
    (⟨nextId, jobType, .pending, none⟩ : Job)
    (setFailed ("Falha ao publicar mensagem: " ++ e)) rfl hfresh
  have hfind1 := findJob_append_fresh nextId
    (⟨nextId, jobType, .pending, none⟩ : Job) rfl hfresh
  have hfind2 := findJob_append_fresh nextId
    (setFailed ("Falha ao publicar mensagem: " ++ e)
      ⟨nextId, jobType, .pending, none⟩) rfl hfresh
  unfold scheduleCrawlJob
  dsimp only
  refine ⟨⟨rfl, ?_, ?_, rfl⟩, rfl, hfind1, ?_, rfl⟩
  · rw [hupd]
    exact hfind2
  · unfold jobStatusesIn
    rw [List.map_cons, List.map_cons, List.map_nil, hupd, hfind1, hfind2]
    rfl
  · unfold jobStatusesIn
    rw [List.map_cons, List.map_nil, hfind1]
    rfl

/-- C6 witness: the theorem at a concrete fresh database. -/
theorem c6_dispatch_single_witness :
    ((scheduleCrawlJob emptyDB 1 .hockey "q" "hockey" "de Hockey"
        (.error "down")).response =
       .error ⟨500, "Erro ao agendar job: " ++ "down"⟩ ∧
     (scheduleCrawlJob emptyDB 1 .hockey "q" "hockey" "de Hockey"
        (.error "down")).db.findJob 1 =
       some ⟨1, .hockey, .failed,
             some ("Falha ao publicar mensagem: " ++ "down")⟩ ∧
     jobStatusesIn (scheduleCrawlJob emptyDB 1 .hockey "q" "hockey" "de Hockey"
         (.error "down")).commits 1 = [some .pending, some .failed] ∧
     (scheduleCrawlJob emptyDB 1 .hockey "q" "hockey" "de Hockey"
        (.error "down")).published = []) ∧
    ((scheduleCrawlJob emptyDB 1 .hockey "q" "hockey" "de Hockey"
        (.ok ())).response =
       .ok ⟨1, "Job de scraping " ++ "de Hockey" ++ " agendado com sucesso",
            .pending⟩ ∧
     (scheduleCrawlJob emptyDB 1 .hockey "q" "hockey" "de Hockey"
        (.ok ())).db.findJob 1 = some ⟨1, .hockey, .pending, none⟩ ∧
     jobStatusesIn (scheduleCrawlJob emptyDB 1 .hockey "q" "hockey" "de Hockey"
         (.ok ())).commits 1 = [some .pending] ∧
     (scheduleCrawlJob emptyDB 1 .hockey "q" "hockey" "de Hockey"
        (.ok ())).published = [⟨"q", 1, "hockey"⟩]) :=
  c6_dispatch_single emptyDB 1 .hockey "q" "hockey" "de Hockey" "down" rfl

/-- C7: the composite endpoint creates exactly one job of composite type
and publishes to the hockey channel then to the oscar channel with that
same job id; if either publish fails the one job is marked FAILED and
HTTP 500 is raised, and an envelope already published to the hockey
channel is not retracted. -/
theorem c7_composite_dispatch (db : DB) (nextId : Nat) (qh qo e : String)
    (hfresh : db.findJob nextId = none) :
    (crawlAll db nextId qh qo (.ok ()) (.ok ()) =
       ⟨{ db with jobs := db.jobs ++ [⟨nextId, .all, .pending, none⟩] },
        [{ db with jobs := db.jobs ++ [⟨nextId, .all, .pending, none⟩] }],
        [⟨qh, nextId, "hockey"⟩, ⟨qo, nextId, "oscar"⟩],
        .ok ⟨nextId, "Jobs de scraping agendados com sucesso", .pending⟩⟩) ∧
    (crawlAll db nextId qh qo (.ok ()) (.error e)).published =
      [⟨qh, nextId, "hockey"⟩] ∧
    (crawlAll db nextId qh qo (.ok ()) (.error e)).db =
      { db with jobs := db.jobs ++
          [⟨nextId, .all, .failed,
            some ("Falha ao publicar mensagens: " ++ e)⟩] } ∧
    (crawlAll db nextId qh qo (.ok ()) (.error e)).response =
      .error ⟨500, "Erro ao agendar jobs: " ++ e⟩ ∧
    (crawlAll db nextId qh qo (.error e) (.ok ())).published = [] ∧
    (crawlAll db nextId qh qo (.error e) (.ok ())).db =
      { db with jobs := db.jobs ++
          [⟨nextId, .all, .failed,
            some ("Falha ao publicar mensagens: " ++ e)⟩] } ∧
    (crawlAll db nextId qh qo (.error e) (.ok ())).response =
      .error ⟨500, "Erro ao agendar jobs: " ++ e⟩ := by
  have hupd := updateJob_append_fresh nextId
    (⟨nextId, .all, .pending, none⟩ : Job)
    (setFailed ("Falha ao publicar mensagens: " ++ e)) rfl hfresh
  unfold crawlAll
  dsimp only
  refine ⟨rfl, rfl, ?_, rfl, rfl, ?_, rfl⟩
  · rw [hupd]
    rfl
  · rw [hupd]
    rfl

/-- C7 witness: the theorem at a concrete fresh database. -/
theorem c7_composite_dispatch_witness :
    (crawlAll emptyDB 1 "qh" "qo" (.ok ()) (.ok ()) =
       ⟨{ emptyDB with jobs := emptyDB.jobs ++ [⟨1, .all, .pending, none⟩] },
        [{ emptyDB with jobs := emptyDB.jobs ++ [⟨1, .all, .pending, none⟩] }],
        [⟨"qh", 1, "hockey"⟩, ⟨"qo", 1, "oscar"⟩],
        .ok ⟨1, "Jobs de scraping agendados com sucesso", .pending⟩⟩) ∧
    (crawlAll emptyDB 1 "qh" "qo" (.ok ()) (.error "boom")).published =
      [⟨"qh", 1, "hockey"⟩] ∧
    (crawlAll emptyDB 1 "qh" "qo" (.ok ()) (.error "boom")).db =
      { emptyDB with jobs := emptyDB.jobs ++
          [⟨1, .all, .failed,
            some ("Falha ao publicar mensagens: " ++ "boom")⟩] } ∧
    (crawlAll emptyDB 1 "qh" "qo" (.ok ()) (.error "boom")).response =
      .error ⟨500, "Erro ao agendar jobs: " ++ "boom"⟩ ∧
    (crawlAll emptyDB 1 "qh" "qo" (.error "boom") (.ok ())).published = [] ∧
    (crawlAll emptyDB 1 "qh" "qo" (.error "boom") (.ok ())).db =
      { emptyDB with jobs := emptyDB.jobs ++
          [⟨1, .all, .failed,
            some ("Falha ao publicar mensagens: " ++ "boom")⟩] } ∧
    (crawlAll emptyDB 1 "qh" "qo" (.error "boom") (.ok ())).response =
      .error ⟨500, "Erro ao agendar jobs: " ++ "boom"⟩ :=
  c7_composite_dispatch emptyDB 1 "qh" "qo" "boom" rfl

/-! ## Invariant preservation for the error-message claim -/

theorem jobInv_setRunning (j : Job) : jobInv (setRunning j) := by
  refine ⟨fun h => ?_, fun h => ?_⟩ <;> simp [setRunning] at h

theorem jobInv_setCompleted (j : Job) : jobInv (setCompleted j) := by
  refine ⟨fun h => ?_, fun h => ?_⟩ <;> simp [setCompleted] at h

theorem jobInv_setFailed (m : String) (j : Job) : jobInv (setFailed m j) := by
  refine ⟨fun h => ?_, fun h => ?_⟩
  · simp [setFailed] at h
  · simp [setFailed]

theorem jobInv_pending_new (id : Nat) (t : JobType) :
    jobInv ⟨id, t, .pending, none⟩ :=
  ⟨fun _ => rfl, fun h => nomatch h⟩

theorem dbInv_updateJob {db : DB} (id : Nat) {f : Job → Job} (hdb : dbInv db)
    (hf : ∀ j, jobInv (f j)) : dbInv (db.updateJob id f) := by
  intro j hj
  have hj2 : j ∈ db.jobs.map (fun x => if x.id == id then f x else x) := hj
  rcases List.mem_map.mp hj2 with ⟨a, ha, hrw⟩
  by_cases hc : (a.id == id) = true
  · rw [if_pos hc] at hrw
    exact hrw ▸ hf a
  · rw [if_neg hc] at hrw
    exact hrw ▸ hdb a ha

theorem dbInv_append {db : DB} {j : Job} (hdb : dbInv db) (hj : jobInv j) :
    dbInv { db with jobs := db.jobs ++ [j] } := by
  intro x hx
  have hx2 : x ∈ db.jobs ++ [j] := hx
  rcases List.mem_append.mp hx2 with h | h
  · exact hdb x h
  · rw [List.mem_singleton.mp h]
    exact hj

theorem dbInv_jobs_eq (db1 db2 : DB) (h : db2.jobs = db1.jobs)
    (hdb : dbInv db1) : dbInv db2 := by
  intro x hx
  exact hdb x (h ▸ hx)

theorem processHockeyJob_inv {db : DB} {v : JsonVal} {s : ScrapeResult}
    (hdb : dbInv db) : dbInv (processHockeyJob db v s).db := by
  unfold processHockeyJob
  cases hfind : db.findJobV v with
  | none => exact hdb
  | some job =>
    cases s with
    | err m =>
      exact dbInv_updateJob _ (dbInv_updateJob _ hdb jobInv_setRunning)
        (jobInv_setFailed m)
    | ok records =>
      dsimp only
      cases hb : buildRows mkHockeyRow job.id records with
      | ok rows =>
        exact dbInv_jobs_eq
          ((db.updateJob job.id setRunning).updateJob job.id setCompleted) _
          rfl
          (dbInv_updateJob _ (dbInv_updateJob _ hdb jobInv_setRunning)
            jobInv_setCompleted)
      | error p =>
        obtain ⟨staged, m⟩ := p
        exact dbInv_jobs_eq
          ((db.updateJob job.id setRunning).updateJob job.id (setFailed m)) _
          rfl
          (dbInv_updateJob _ (dbInv_updateJob _ hdb jobInv_setRunning)
            (jobInv_setFailed m))

theorem processOscarJob_inv {db : DB} {v : JsonVal} {s : ScrapeResult}
    (hdb : dbInv db) : dbInv (processOscarJob db v s).db := by
  unfold processOscarJob
  cases hfind : db.findJobV v with
  | none => exact hdb
  | some job =>
    cases s with
    | err m =>
      exact dbInv_updateJob _ (dbInv_updateJob _ hdb jobInv_setRunning)
        (jobInv_setFailed m)
    | ok records =>
      dsimp only
      cases hb : buildRows mkOscarRow job.id records with
      | ok rows =>
        exact dbInv_jobs_eq
          ((db.updateJob job.id setRunning).updateJob job.id setCompleted) _
          rfl
          (dbInv_updateJob _ (dbInv_updateJob _ hdb jobInv_setRunning)
            jobInv_setCompleted)
      | error p =>
        obtain ⟨staged, m⟩ := p
        exact dbInv_jobs_eq
          ((db.updateJob job.id setRunning).updateJob job.id (setFailed m)) _
          rfl
          (dbInv_updateJob _ (dbInv_updateJob _ hdb jobInv_setRunning)
            (jobInv_setFailed m))

theorem processHockeyMessage_inv {db : DB} {body : Body} {s : ScrapeResult}
    (hdb : dbInv db) : dbInv (processHockeyMessage db body s).db := by
  unfold processHockeyMessage
  cases body with
  | invalid => exact hdb
  | nonDict => exact hdb
  | dict fields =>
    dsimp only
    cases getField fields "job_id" with
    | none => exact hdb
    | some v =>
      dsimp only
      by_cases htr : v.truthy = true
      · simp only [htr, if_true]
        cases (processHockeyJob db v s).raised with
        | none => exact processHockeyJob_inv hdb
        | some m => exact processHockeyJob_inv hdb
      · simp only [Bool.not_eq_true] at htr
        simp only [htr, Bool.false_eq_true, if_false]
        exact hdb

theorem processOscarMessage_inv {db : DB} {body : Body} {s : ScrapeResult}
    (hdb : dbInv db) : dbInv (processOscarMessage db body s).db := by
  unfold processOscarMessage
  cases body with
  | invalid => exact hdb
  | nonDict => exact hdb
  | dict fields =>
    dsimp only
    cases getField fields "job_id" with
    | none => exact hdb
    | some v =>
      dsimp only
      by_cases htr : v.truthy = true
      · simp only [htr, if_true]
        cases (processOscarJob db v s).raised with
        | none => exact processOscarJob_inv hdb
        | some m => exact processOscarJob_inv hdb
      · simp only [Bool.not_eq_true] at htr
        simp only [htr, Bool.false_eq_true, if_false]
        exact hdb

theorem scheduleCrawlJob_inv {db : DB} (nextId : Nat) (jobType : JobType)
    (qn tn ms : String) (pub : Except String Unit) (hdb : dbInv db) :
    dbInv (scheduleCrawlJob db nextId jobType qn tn ms pub).db := by
  unfold scheduleCrawlJob
  cases pub with
  | error e =>
    exact dbInv_updateJob _ (dbInv_append hdb (jobInv_pending_new _ _))
      (jobInv_setFailed _)
  | ok u => exact dbInv_append hdb (jobInv_pending_new _ _)

theorem crawlAll_inv {db : DB} (nextId : Nat) (qh qo : String)
    (pubH pubO : Except String Unit) (hdb : dbInv db) :
    dbInv (crawlAll db nextId qh qo pubH pubO).db := by
  unfold crawlAll
  cases pubH with
  | error e =>
    exact dbInv_updateJob _ (dbInv_append hdb (jobInv_pending_new _ _))
      (jobInv_setFailed _)
  | ok u =>
    cases pubO with
    | error e =>
      exact dbInv_updateJob _ (dbInv_append hdb (jobInv_pending_new _ _))
        (jobInv_setFailed _)
    | ok u2 => exact dbInv_append hdb (jobInv_pending_new _ _)

/-- C3 counterexample: a composite dispatch whose second publish fails
marks job 1 FAILED with a non-empty error message but already published
the hockey envelope; reprocessing that envelope successfully leaves the
job COMPLETED while still carrying the stale non-empty error message, so
status = FAILED is not equivalent to a non-empty error_message. -/
theorem c3_counterexample :
    (crawlAll emptyDB 1 "qh" "qo" (.ok ()) (.error "boom")).published =
      [⟨"qh", 1, "hockey"⟩] ∧
    (processHockeyMessage (crawlAll emptyDB 1 "qh" "qo" (.ok ())
          (.error "boom")).db
        (.dict [("job_id", .jint 1)]) (.ok [])).db.findJob 1 =
      some ⟨1, .all, .completed, some "Falha ao publicar mensagens: boom"⟩ := by
  exact ⟨rfl, rfl⟩

/-- C3 (amended): in every state reachable by dispatcher and worker
operations, a PENDING job never carries an error_message and a FAILED job
always has error_message set; but the biconditional of the original claim
fails, because worker transitions never clear error_message, so RUNNING
and COMPLETED jobs can retain a stale one (and a worker-recorded error
text is the raw exception text, which may be empty). -/
theorem c3_error_message_invariant (db : DB) (h : Reach db) : dbInv db := by
  induction h with
  | init =>
    intro j hj
    exact absurd hj (List.not_mem_nil j)
  | next hr hs ih =>
    cases hs with
    | schedule nextId jobType qn tn ms pub =>
      exact scheduleCrawlJob_inv nextId jobType qn tn ms pub ih
    | crawlAllStep nextId qh qo pubH pubO =>
      exact crawlAll_inv nextId qh qo pubH pubO ih
    | hockeyMsg body scrape => exact processHockeyMessage_inv ih
    | oscarMsg body scrape => exact processOscarMessage_inv ih

/-- C3 witness: the invariant at a concrete reachable state (a composite
dispatch whose second publish failed, followed by a worker consuming the
hockey envelope). -/
theorem c3_error_message_invariant_witness :
    dbInv (processHockeyMessage (crawlAll emptyDB 1 "qh" "qo" (.ok ())
        (.error "boom")).db (.dict [("job_id", .jint 1)]) (.ok [])).db :=
  c3_error_message_invariant _
    (Reach.next
      (Reach.next Reach.init
        (Step.crawlAllStep emptyDB 1 "qh" "qo" (.ok ()) (.error "boom")))
      (Step.hockeyMsg _ (.dict [("job_id", .jint 1)]) (.ok [])))

end RpaScraping
